import Mathlib

/-!
Shallow embedding of the wraith 802.11 MPDU decoder
(`src/radio/bits.py` and `src/radio/mpdu.py`) and proofs about it.

Byte buffers are modelled as `List Nat` (each entry a byte value `< 256`);
Python dicts as association lists over `String` keys; raised exceptions as
`Except` errors.  Multi-byte struct reads are little-endian, matching the
`=`-format strings on little-endian wire data.
-/

namespace Wraith

/-- A raw byte buffer (Python `str` of bytes in the source). -/
abbrev Bytes := List Nat

/-- The exceptions the decoder can raise (`MPDUException` discriminants plus
the uncaught `struct.error` from the vendor-IE split and `KeyError` from the
bitmask tables). -/
inductive MErr where
  | invalidFrameSize
  | invalidFrameType
  | invalidFlags
  | unpackErr
  | unknownCtrlSubtype
  | unresolved
  | structError
  deriving Repr, DecidableEq

/-! ## bits.py -/

/-- A bitmask table: `dict` of name -> mask (`src/radio/bits.py` module doc). -/
abbrev BitTable := List (String × Nat)

/-- Python `bm[f]`: association-list lookup (`KeyError` becomes `none`). -/
def tblGet (bm : BitTable) (f : String) : Option Nat :=
  match bm with
  | [] => none
  | (k, m) :: rest => if k == f then some m else tblGet rest f

/-- `bits.bitmask`: names in `bm` whose mask is fully present in `mn`. -/
def bitmask (bm : BitTable) (mn : Nat) : List String :=
  if mn == 0 then []
  else (bm.filter (fun p => mn &&& p.2 == p.2)).map Prod.fst

/-- `bits.bitmask_get`: 1 iff flag `f` of `bm` is set in `mn`. -/
def bitmask_get (bm : BitTable) (mn : Nat) (f : String) : Option Nat :=
  (tblGet bm f).map (fun m => if m &&& mn == m then 1 else 0)

/-- `bits.bitmask_set`: `mn | bm[f]`. -/
def bitmask_set (bm : BitTable) (mn : Nat) (f : String) : Option Nat :=
  (tblGet bm f).map (fun m => mn ||| m)

/-- Modelled from the spec: `flag_unset` is listed among the BitView
named-flag utilities (§2, §4.1: "`flag_set`/`flag_unset` return new integer
values with the named mask OR'd in or AND-NOT'd out") but no such function
exists under `src/`; faithful to the spec's words, it AND-NOT's the named
mask out of the value (`Nat.ldiff mn m` is `mn & ~m`). -/
def bitmask_unset (bm : BitTable) (mn : Nat) (f : String) : Option Nat :=
  (tblGet bm f).map (fun m => Nat.ldiff mn m)

/-- `bits.leastx`: the `x` least significant bits of `v`. -/
def leastx (x v : Nat) : Nat := v &&& ((1 <<< x) - 1)

/-- `bits.midx`: `x` bits starting at `s`, left in place (not shifted down). -/
def midx (s x v : Nat) : Nat := v &&& (((1 <<< x) - 1) <<< s)

/-- `bits.mostx`: the bits of `v` from position `s` up. -/
def mostx (s v : Nat) : Nat := v >>> s

/-! ## mpdu.py: data model

The decode record is a Python dict with heterogeneous values; we model it as
an association list over `String` keys with a `Val` universe of the value
shapes that occur. -/

/-- Values stored in the decode record. -/
inductive Val where
  | n (v : Nat)                           -- numbers
  | s (v : String)                        -- mac-address / hex strings
  | pair (a b : Nat)                      -- the `sz` tuple
  | d (entries : List (String × Val))     -- nested dicts
  | strs (l : List String)                -- the `present` list
  | bytes (b : Bytes)                     -- raw slices (`action-el`, IE bodies)
  | tup (tag : Nat) (body : Val)          -- an info-element `(id, val)` tuple
  | pairv (a b : Val)                     -- the vendor `(oui, remainder)` tuple
  | rats (l : List Rat)                   -- supported-rates lists (Mbps)
  | vlist (l : List Val)                  -- lists of values (IEs, tids)

/-- A Python dict of record fields. -/
abbrev Dict := List (String × Val)

/-- Python `d[k]` lookup. -/
def dget (d : Dict) (k : String) : Option Val :=
  match d with
  | [] => none
  | (k', v) :: rest => if k' == k then some v else dget rest k

/-- Python `d[k] = v`: replace an existing binding or append a new one. -/
def dset (d : Dict) (k : String) (v : Val) : Dict :=
  match d with
  | [] => [(k, v)]
  | (k', v') :: rest => if k' == k then (k, v) :: rest else (k', v') :: dset rest k v

/-- Python `d[k1][k2] = v` where `d[k1]` is a nested dict (at every call site
`d[k1]` was assigned a dict just before; the fallback branch is unreachable). -/
def dsetIn (d : Dict) (k1 k2 : String) (v : Val) : Dict :=
  match dget d k1 with
  | some (.d inner) => dset d k1 (.d (dset inner k2 v))
  | _ => d

/-! ## mpdu.py: hex and mac rendering -/

/-- One lowercase hex digit. -/
def hexDigit (n : Nat) : Char :=
  if n < 10 then Char.ofNat (48 + n) else Char.ofNat (87 + n)

/-- One uppercase hex digit. -/
def hexDigitU (n : Nat) : Char :=
  if n < 10 then Char.ofNat (48 + n) else Char.ofNat (55 + n)

/-- `'%02x'` of one byte (buffer entries are bytes, `< 256`). -/
def hexByte (b : Nat) : String := String.mk [hexDigit (b / 16 % 16), hexDigit (b % 16)]

/-- `'{0:02X}'.format` of one byte. -/
def hexByteU (b : Nat) : String := String.mk [hexDigitU (b / 16 % 16), hexDigitU (b % 16)]

/-- `binascii.hexlify`: lowercase hex of a byte string. -/
def hexlify (l : Bytes) : String := String.join (l.map hexByte)

/-- `mpdu.macaddr`: colon-separated uppercase hex of 6 unpacked bytes (every
call site passes exactly 6 bytes, so the `RuntimeError` branch never fires). -/
def macaddr (l : List Nat) : String := String.intercalate ":" (l.map hexByteU)

/-- The vendor-specific OUI rendering: dash-joined uppercase hex of 3 bytes. -/
def ouiStr (l : List Nat) : String := String.intercalate "-" (l.map hexByteU)

/-! ## mpdu.py: struct unpacking

Field kinds of the `=`-format strings used by the source (`B`, `H`, `L`, `Q`),
read little-endian with no padding. -/

inductive FK where
  | B | H | L | Q
  deriving Repr, DecidableEq

/-- `struct.calcsize` of one field. -/
def FK.sz : FK → Nat
  | .B => 1
  | .H => 2
  | .L => 4
  | .Q => 8

/-- `struct.calcsize` of a format. -/
def fmtSize (fmt : List FK) : Nat := (fmt.map FK.sz).sum

/-- Little-endian value of `sz` bytes of `f` starting at `o`. -/
def readLE (f : Bytes) (o : Nat) : Nat → Nat
  | 0 => 0
  | sz + 1 => f.getD o 0 + 256 * readLE f (o + 1) sz

/-- The unpacked values of a format at offset `o` (bounds already checked). -/
def unpackVals : List FK → Bytes → Nat → List Nat
  | [], _, _ => []
  | k :: ks, f, o => readLE f o k.sz :: unpackVals ks f (o + k.sz)

/-- `mpdu._unpack_from_`: unpack `fmt` from `b` at `o`, returning the values
and the advanced offset, or the wrapped `struct.error` on a short buffer. -/
def unpackFrom (fmt : List FK) (b : Bytes) (o : Nat) : Except MErr (List Nat × Nat) :=
  if o + fmtSize fmt ≤ b.length then .ok (unpackVals fmt b o, o + fmtSize fmt)
  else .error .unpackErr

/-! ## mpdu.py: constants and subfield decoders -/

def FT_MGMT : Nat := 0
def FT_CTRL : Nat := 1
def FT_DATA : Nat := 2

def ST_CTRL_WRAPPER : Nat := 7
def ST_CTRL_BLOCK_ACK_REQ : Nat := 8
def ST_CTRL_BLOCK_ACK : Nat := 9
def ST_CTRL_PSPOLL : Nat := 10
def ST_CTRL_RTS : Nat := 11
def ST_CTRL_CTS : Nat := 12
def ST_CTRL_ACK : Nat := 13
def ST_CTRL_CFEND : Nat := 14
def ST_CTRL_CFEND_CFACK : Nat := 15

def ST_MGMT_ASSOC_REQ : Nat := 0
def ST_MGMT_ASSOC_RESP : Nat := 1
def ST_MGMT_REASSOC_REQ : Nat := 2
def ST_MGMT_REASSOC_RESP : Nat := 3
def ST_MGMT_PROBE_REQ : Nat := 4
def ST_MGMT_PROBE_RESP : Nat := 5
def ST_MGMT_TIMING_ADV : Nat := 6
def ST_MGMT_BEACON : Nat := 8
def ST_MGMT_DISASSOC : Nat := 10
def ST_MGMT_AUTH : Nat := 11
def ST_MGMT_DEAUTH : Nat := 12
def ST_MGMT_ACTION : Nat := 13
def ST_MGMT_ACTION_NOACK : Nat := 14

def ST_DATA_QOS_DATA : Nat := 8
def ST_DATA_QOS_CFACK_CFPOLL : Nat := 15

/-- `struct.calcsize('=HH6B')`: minimum frame size. -/
def MIN_FRAME_SZ : Nat := 10

/-- `bits.bitmask_list` specialised to dict building: each table name maps to
`int(bm[name] & mn == bm[name])`. -/
def bitmask_list (bm : BitTable) (mn : Nat) : Dict :=
  bm.map (fun p => (p.1, Val.n (if mn &&& p.2 == p.2 then 1 else 0)))

def FC_FIELDS : BitTable :=
  [("td", 1), ("fd", 2), ("mf", 4), ("r", 8), ("pm", 16), ("md", 32), ("pf", 64), ("o", 128)]

def QOS_FIELDS : BitTable := [("eosp", 16), ("a-msdu", 128)]

/-- `_QOS_AP_PS_BUFFER_FIELDS`: defined in the source but (note!) never used
by `qosapbufferstate`, which reads `_QOS_FIELDS_` instead. -/
def QOS_AP_PS_BUFFER_FIELDS : BitTable := [("rsrv", 1), ("buffer-state-indicated", 2)]

def BACTRL : BitTable := [("ackpolicy", 1), ("multi-tid", 2), ("compressed-bm", 4)]

/-- `mpdu.seqctrl`: sequence control split at bit 4. -/
def seqctrl (v : Nat) : Dict :=
  [("fragno", .n (leastx 4 v)), ("seqno", .n (mostx 4 v))]

/-- `mpdu.qosctrl` on the two unpacked bytes. -/
def qosctrl (lsb msb : Nat) : Dict :=
  let qos := bitmask_list QOS_FIELDS lsb
  let qos := dset qos "tid" (.n (leastx 4 lsb))
  let qos := dset qos "ack-policy" (.n (midx 5 2 lsb))
  dset qos "txop" (.n msb)

/-- `mpdu.qosapbufferstate`: note the source passes `_QOS_FIELDS_` (eosp /
a-msdu), not the adjacent `_QOS_AP_PS_BUFFER_FIELDS` table, to
`bitmask_list`. -/
def qosapbufferstate (v : Nat) : Dict :=
  let apps := bitmask_list QOS_FIELDS v
  let apps := dset apps "high-pri" (.n (midx 2 2 v))
  dset apps "ap-buffered" (.n (mostx 4 v))

/-- `mpdu.bactrl`: BA/BAR control decode. -/
def bactrl (v : Nat) : Dict :=
  let bc := bitmask_list BACTRL v
  let bc := dset bc "rsrv" (.n (midx 3 9 v))
  dset bc "tid-info" (.n (mostx 12 v))

/-- `mpdu.pertid` on the two unpacked u16s. -/
def pertid (w0 w1 : Nat) : Dict :=
  let pti := seqctrl w1
  let pti := dset pti "pertid-rsrv" (.n (leastx 12 w0))
  dset pti "pertid-tid" (.n (mostx 12 w0))

/-! ## mpdu.py: frame control and header parsers -/

/-- Format of a 6-byte mac address (`_S2F_['addr']`). -/
def fmtAddr : List FK := [.B, .B, .B, .B, .B, .B]

/-- Format `addr + addr + seqctrl` shared by the mgmt and data parsers. -/
def fmtAddrAddrSeq : List FK := fmtAddr ++ fmtAddr ++ [.H]

/-- Dispatch-table membership of the first byte: the `ST_MGMT` / `ST_CTRL` /
`ST_DATA` dict keys are exactly the byte values with low nibble 0, 4 and 8,
and map to the subtype in the high nibble. -/
def ftst (b0 : Nat) : Option (Nat × Nat) :=
  if b0 < 256 then
    if b0 % 16 == 0 then some (FT_MGMT, b0 / 16)
    else if b0 % 16 == 4 then some (FT_CTRL, b0 / 16)
    else if b0 % 16 == 8 then some (FT_DATA, b0 / 16)
    else none
  else none

/-- Source `mpdu.framectrl`: the minimum-size check, the dispatch-table
classification of the first byte, and the flags byte read at offset 1. -/
def framectrl (f : Bytes) : Except MErr (Nat × Nat × Nat) :=
  if f.length < MIN_FRAME_SZ then .error .invalidFrameSize
  else
    match ftst (f.getD 0 0) with
    | none => .error .invalidFrameType
    | some (ft, st) =>
      match unpackFrom [.B] f 1 with
      | .error _ => .error .invalidFlags
      | .ok (vs, _) => .ok (ft, st, vs.getD 0 0)

/-- Modelled from the spec: the vendor-specific element id of the
information-element module (`wraith.radio.infoelement`, not under `src/`);
the standard 802.11 id is 221. -/
def EID_VEND_SPEC : Nat := 221

/-- Modelled from the spec: the supported-rates element id (the beacon
scenario in the spec decodes tag 1 as rates, the standard id). -/
def EID_SUPPORTED_RATES : Nat := 1

/-- Modelled from the spec: the extended-rates element id, standard id 50. -/
def EID_EXT_RATES : Nat := 50

/-- Modelled from the spec: the rate-byte to Mbps table of the
information-element module (not under `src/`); a standard rate byte encodes
the rate in 500 kb/s units below its high bit, matching the spec scenario
where byte 0x82 renders as 1.0 Mbps and 0x84 as 2.0 Mbps. -/
def getrate (r : Nat) : Rat := ((r &&& 127 : Nat) : Rat) / 2

/-- Source `mpdu.parsemgmt` information-element `while` loop: read tag and
length bytes, slice the body, refine vendor-specific and rates tags, and
advance by the declared length.  The first argument only bounds the number
of rounds for structural recursion: every round advances the offset by at
least the two header bytes, so `f.length + 1` rounds (see `ieLoop`) are
never exhausted before the offset reaches `f.length`. -/
def ieLoopF : Nat → Bytes → Nat → List Val → Except MErr (List Val × Nat)
  | 0, _, o, acc => .ok (acc, o)
  | fuel + 1, f, o, acc =>
    if o < f.length then
      if o + 2 ≤ f.length then
        let vs := unpackVals [.B, .B] f o
        let tag := vs.getD 0 0
        let ln := vs.getD 1 0
        let body := (f.drop (o + 2)).take ln
        if tag == EID_VEND_SPEC then
          let b3 := body.take 3
          if b3.length == 3 then
            ieLoopF fuel f (o + 2 + ln)
              (acc ++ [.tup tag (.pairv (.s (ouiStr b3)) (.bytes (body.drop 3)))])
          else .error .structError
        else if tag == EID_SUPPORTED_RATES || tag == EID_EXT_RATES then
          ieLoopF fuel f (o + 2 + ln) (acc ++ [.tup tag (.rats (body.map getrate))])
        else
          ieLoopF fuel f (o + 2 + ln) (acc ++ [.tup tag (.bytes body)])
      else .error .unpackErr
    else .ok (acc, o)

/-- The information-element loop entered at offset `o`. -/
def ieLoop (f : Bytes) (o : Nat) (acc : List Val) : Except MErr (List Val × Nat) :=
  ieLoopF (f.length + 1) f o acc

/-- Trailing information-element scan shared by the mgmt fixed-parameter
branches (`if o < len(f): ...` at the end of `parsemgmt`). -/
def ieScan (f : Bytes) (pfs : List String) (d : Dict) (o : Nat) :
    Except MErr (List String × Dict × Nat) :=
  if o < f.length then
    match ieLoop f o [] with
    | .error e => .error e
    | .ok (items, o') => .ok (pfs ++ ["info-elements"], dset d "info-elements" (.vlist items), o')
  else .ok (pfs, d, o)

/-- Source `mpdu.parsemgmt`: common addresses and sequence control, then the
subtype fixed parameters, then the information elements. -/
def parsemgmt (st : Nat) (f : Bytes) (pfs : List String) (d : Dict) (o : Nat) :
    Except MErr (List String × Dict × Nat) :=
  match unpackFrom fmtAddrAddrSeq f o with
  | .error e => .error e
  | .ok (vs, o) =>
    let pfs := pfs ++ ["addr2", "addr3", "seqctrl"]
    let d := dset d "addr2" (.s (macaddr (vs.take 6)))
    let d := dset d "addr3" (.s (macaddr ((vs.drop 6).take 6)))
    let d := dset d "seqctrl" (.d (seqctrl (vs.getD 12 0)))
    if st == ST_MGMT_ASSOC_REQ then
      match unpackFrom [.H, .H] f o with
      | .error e => .error e
      | .ok (ws, o) =>
        let pfs := pfs ++ ["fixed-params"]
        let d := dset d "fixed-params"
          (.d [("capability", .n (ws.getD 0 0)), ("listen-int", .n (ws.getD 1 0))])
        ieScan f pfs d o
    else if st == ST_MGMT_ASSOC_RESP || st == ST_MGMT_REASSOC_RESP then
      match unpackFrom [.H, .H, .H] f o with
      | .error e => .error e
      | .ok (ws, o) =>
        let pfs := pfs ++ ["fixed-params"]
        let d := dset d "fixed-params"
          (.d [("capability", .n (ws.getD 0 0)), ("status-code", .n (ws.getD 1 0)),
               ("aid", .n (leastx 14 (ws.getD 2 0)))])
        ieScan f pfs d o
    else if st == ST_MGMT_REASSOC_REQ then
      match unpackFrom ([.H, .H] ++ fmtAddr) f o with
      | .error e => .error e
      | .ok (ws, o) =>
        let pfs := pfs ++ ["fixed-params"]
        let d := dset d "fixed-params"
          (.d [("capability", .n (ws.getD 0 0)), ("listen-int", .n (ws.getD 1 0)),
               ("current-ap", .s (macaddr (ws.drop 2)))])
        ieScan f pfs d o
    else if st == ST_MGMT_PROBE_REQ then
      -- all fields are information elements
      ieScan f pfs d o
    else if st == ST_MGMT_TIMING_ADV then
      match unpackFrom [.Q, .H] f o with
      | .error e => .error e
      | .ok (ws, o) =>
        let pfs := pfs ++ ["fixed-params"]
        let d := dset d "fixed-params"
          (.d [("timestamp", .n (ws.getD 0 0)), ("capability", .n (ws.getD 1 0))])
        ieScan f pfs d o
    else if st == ST_MGMT_PROBE_RESP || st == ST_MGMT_BEACON then
      match unpackFrom [.Q, .H, .H] f o with
      | .error e => .error e
      | .ok (ws, o) =>
        let pfs := pfs ++ ["fixed-params"]
        let d := dset d "fixed-params"
          (.d [("timestamp", .n (ws.getD 0 0)), ("beacon-int", .n (ws.getD 1 0 * 1024)),
               ("capability", .n (ws.getD 2 0))])
        ieScan f pfs d o
    else if st == ST_MGMT_DISASSOC || st == ST_MGMT_DEAUTH then
      match unpackFrom [.H] f o with
      | .error e => .error e
      | .ok (ws, o) =>
        let pfs := pfs ++ ["fixed-params"]
        let d := dset d "fixed-params" (.d [("reason-code", .n (ws.getD 0 0))])
        ieScan f pfs d o
    else if st == ST_MGMT_AUTH then
      match unpackFrom [.H, .H, .H] f o with
      | .error e => .error e
      | .ok (ws, o) =>
        let pfs := pfs ++ ["fixed-params"]
        let d := dset d "fixed-params"
          (.d [("algorithm-no", .n (ws.getD 0 0)), ("auth-seq", .n (ws.getD 1 0)),
               ("status-code", .n (ws.getD 2 0))])
        ieScan f pfs d o
    else if st == ST_MGMT_ACTION || st == ST_MGMT_ACTION_NOACK then
      match unpackFrom [.B, .B] f o with
      | .error e => .error e
      | .ok (ws, o) =>
        let pfs := pfs ++ ["fixed-params"]
        let d := dset d "fixed-params"
          (.d [("category", .n (ws.getD 0 0)), ("action", .n (ws.getD 1 0))])
        -- store the action element(s): note the name appended to the
        -- presence list and the dict key differ in the source
        if o < f.length then
          ieScan f (pfs ++ ["action-els"]) (dset d "action-el" (.bytes (f.drop o))) f.length
        else ieScan f pfs d o
    else
      -- ST_MGMT_ATIM, RSRV_7 or RSRV_15: return immediately, no IE scan
      .ok (pfs, d, o)

/-- Source `mpdu.parsedata`: addresses, sequence control, optional fourth
address and optional QoS field. -/
def parsedata (st : Nat) (f : Bytes) (pfs : List String) (d : Dict) (o : Nat) :
    Except MErr (List String × Dict × Nat) :=
  match unpackFrom fmtAddrAddrSeq f o with
  | .error e => .error e
  | .ok (vs, o) =>
    let pfs := pfs ++ ["addr2", "addr3", "seqctrl"]
    let d := dset d "addr2" (.s (macaddr (vs.take 6)))
    let d := dset d "addr3" (.s (macaddr ((vs.drop 6).take 6)))
    let d := dset d "seqctrl" (.d (seqctrl (vs.getD 12 0)))
    -- flags = fcfields_all(d['framectrl']['flags']); the fallback 0 is
    -- unreachable: parse always stores the framectrl dict first
    let fl := match dget d "framectrl" with
      | some (.d fc) =>
        match dget fc "flags" with
        | some (.n m) => m
        | _ => 0
      | _ => 0
    let step1 : Except MErr (List String × Dict × Nat) :=
      if fl &&& 1 == 1 && fl &&& 2 == 2 then   -- to-DS and from-DS
        match unpackFrom fmtAddr f o with
        | .error e => .error e
        | .ok (ws, o) => .ok (pfs ++ ["addr4"], dset d "addr4" (.s (macaddr ws)), o)
      else .ok (pfs, d, o)
    match step1 with
    | .error e => .error e
    | .ok (pfs, d, o) =>
      -- QoS field? (source: ST_DATA_QOS_DATA <= st <= ST_DATA_QOS_CFACK_CFPOLL)
      if ST_DATA_QOS_DATA ≤ st ∧ st ≤ ST_DATA_QOS_CFACK_CFPOLL then
        match unpackFrom [.B, .B] f o with
        | .error e => .error e
        | .ok (ws, o) =>
          .ok (pfs ++ ["qos"], dset d "qos" (.d (qosctrl (ws.getD 0 0) (ws.getD 1 0))), o)
      else .ok (pfs, d, o)

/-- Source `mpdu.parsectrl` multi-tid BlockAckReq loop
(`for i in xrange(tid-info + 1)`). -/
def barTids (f : Bytes) : Nat → Nat → List Val → Except MErr (List Val × Nat)
  | 0, o, acc => .ok (acc, o)
  | n + 1, o, acc =>
    match unpackFrom [.H, .H] f o with
    | .error e => .error e
    | .ok (vs, o') => barTids f n o' (acc ++ [.d (pertid (vs.getD 0 0) (vs.getD 1 0))])

/-- Source `mpdu.parsectrl` multi-tid BlockAck loop: per-tid info followed by
an 8-byte bitmap each round. -/
def baTids (f : Bytes) : Nat → Nat → List Val → Except MErr (List Val × Nat)
  | 0, o, acc => .ok (acc, o)
  | n + 1, o, acc =>
    match unpackFrom [.H, .H] f o with
    | .error e => .error e
    | .ok (vs, o') =>
      let pt := dset (pertid (vs.getD 0 0) (vs.getD 1 0)) "babitmap"
        (.s (hexlify ((f.drop o').take 8)))
      baTids f n (o' + 8) (acc ++ [.d pt])

/-- Source `mpdu.parsectrl`: control-frame subtype dispatch.  The stored
`multi-tid` and `compressed-bm` entries of `bactrl v` are
`int(v AND mask == mask)`, so the source conditions on them are tests of
bits 1 and 2 of the control word `v`. -/
def parsectrl (st : Nat) (f : Bytes) (pfs : List String) (d : Dict) (o : Nat) :
    Except MErr (List String × Dict × Nat) :=
  if st == ST_CTRL_CTS || st == ST_CTRL_ACK then .ok (pfs, d, o)
  else if st == ST_CTRL_RTS || st == ST_CTRL_PSPOLL || st == ST_CTRL_CFEND
      || st == ST_CTRL_CFEND_CFACK then
    match unpackFrom fmtAddr f o with
    | .error e => .error e
    | .ok (vs, o) => .ok (pfs ++ ["addr2"], dset d "addr2" (.s (macaddr vs)), o)
  else if st == ST_CTRL_BLOCK_ACK_REQ then
    match unpackFrom fmtAddr f o with
    | .error e => .error e
    | .ok (vs, o) =>
      let pfs := pfs ++ ["addr2", "barctrl"]
      let d := dset d "addr2" (.s (macaddr vs))
      match unpackFrom [.H] f o with
      | .error e => .error e
      | .ok (ws, o) =>
        let v := ws.getD 0 0
        let d := dset d "barctrl" (.d (bactrl v))
        if v &&& 2 != 2 then  -- not multi-tid: basic or compressed
          let d := if v &&& 4 != 4 then dsetIn d "barctrl" "type" (.s "basic")
                   else dsetIn d "barctrl" "type" (.s "compressed")
          match unpackFrom [.H] f o with
          | .error e => .error e
          | .ok (sv, o) => .ok (pfs, dset d "barinfo" (.d (seqctrl (sv.getD 0 0))), o)
        else if v &&& 4 != 4 then
          -- reserved: capture remaining bytes and advance to the end
          let d := dsetIn d "barctrl" "type" (.s "reserved")
          let d := dset d "barinfo" (.d [("unparsed", .s (hexlify (f.drop o)))])
          .ok (pfs, d, o + (f.drop o).length)
        else
          -- multi-tid BlockAckReq: read tid-info + 1 per-tid entries
          let d := dsetIn d "barctrl" "type" (.s "multi-tid")
          let d := dset d "barinfo" (.d [("tids", .vlist [])])
          match barTids f (mostx 12 v + 1) o [] with
          | .error e => .error e
          | .ok (tids, o) => .ok (pfs, dsetIn d "barinfo" "tids" (.vlist tids), o)
  else if st == ST_CTRL_BLOCK_ACK then
    match unpackFrom fmtAddr f o with
    | .error e => .error e
    | .ok (vs, o) =>
      let pfs := pfs ++ ["addr2", "bactrl"]
      let d := dset d "addr2" (.s (macaddr vs))
      match unpackFrom [.H] f o with
      | .error e => .error e
      | .ok (ws, o) =>
        let v := ws.getD 0 0
        let d := dset d "bactrl" (.d (bactrl v))
        if v &&& 2 != 2 then  -- not multi-tid
          match unpackFrom [.H] f o with
          | .error e => .error e
          | .ok (sv, o) =>
            let d := dset d "bainfo" (.d (seqctrl (sv.getD 0 0)))
            if v &&& 4 != 4 then
              -- basic BlockAck: 128-byte bitmap, offset advanced by 128
              let d := dsetIn d "bactrl" "type" (.s "basic")
              let d := dsetIn d "bainfo" "babitmap" (.s (hexlify ((f.drop o).take 128)))
              .ok (pfs, d, o + 128)
            else
              -- compressed BlockAck: 8-byte bitmap
              let d := dsetIn d "bactrl" "type" (.s "compressed")
              let d := dsetIn d "bainfo" "babitmap" (.s (hexlify ((f.drop o).take 8)))
              .ok (pfs, d, o + 8)
        else if v &&& 4 != 4 then
          -- reserved: capture remaining bytes, do NOT advance the offset
          let d := dsetIn d "bactrl" "type" (.s "reserved")
          let d := dset d "bainfo" (.d [("unparsed", .s (hexlify (f.drop o)))])
          .ok (pfs, d, o)
        else
          -- multi-tid BlockAck
          let d := dsetIn d "bactrl" "type" (.s "multi-tid")
          let d := dset d "bainfo" (.d [("tids", .vlist [])])
          match baTids f (mostx 12 v + 1) o [] with
          | .error e => .error e
          | .ok (tids, o) => .ok (pfs, dsetIn d "bainfo" "tids" (.vlist tids), o)
  else if st == ST_CTRL_WRAPPER then
    match unpackFrom [.H] f o with
    | .error e => .error e
    | .ok (ws, o) =>
      let pfs := pfs ++ ["carriedframectrl", "htc", "carriedframe"]
      let d := dset d "carriedframectrl" (.n (ws.getD 0 0))
      match unpackFrom [.L] f o with
      | .error e => .error e
      | .ok (hs, o) =>
        let d := dset d "htc" (.n (hs.getD 0 0))
        let d := dset d "carriedframe" (.s (hexlify (f.drop o)))
        .ok (pfs, d, o + (f.drop o).length)
  else .error .unknownCtrlSubtype

/-- Source `mpdu.parse`: the top-level decoder.  Classifies the frame, pulls
the trailing FCS out when requested, reads duration and addr1, dispatches by
frame type, and finishes the record with `vers`, `sz` and `present`. -/
def parse (frame : Bytes) (hasFCS : Bool) : Except MErr Dict :=
  match framectrl frame with
  | .error e => .error e
  | .ok (ft, st, fs) =>
    let pfs : List String := ["framectrl", "duration", "addr1"]
    let mac : Dict :=
      [("framectrl", .d [("type", .n ft), ("subtype", .n st), ("flags", .n fs)])]
    let offset := MIN_FRAME_SZ
    -- remove fcs if present (read before the truncation, as in the source)
    let mac := if hasFCS then dset mac "fcs" (.n (readLE (frame.drop (frame.length - 4)) 0 4))
               else mac
    let frame := if hasFCS then frame.take (frame.length - 4) else frame
    -- struct.unpack(_MIN_FRAME_, frame[:offset]) requires exactly 10 bytes
    if MIN_FRAME_SZ ≤ frame.length then
      let ret := unpackVals [.H, .H, .B, .B, .B, .B, .B, .B] frame 0
      let mac := dset mac "duration" (.n (ret.getD 1 0))
      let mac := dset mac "addr1" (.s (macaddr ((ret.drop 2).take 6)))
      let sub : Except MErr (List String × Dict × Nat) :=
        if ft == FT_CTRL then parsectrl st frame pfs mac offset
        else if ft == FT_MGMT then parsemgmt st frame pfs mac offset
        else if ft == FT_DATA then parsedata st frame pfs mac offset
        else .error .unresolved
      match sub with
      | .error e => .error e
      | .ok (pfs, mac, offset) =>
        let ttlRead := if hasFCS then offset + 4 else offset
        let pfs := if hasFCS then pfs ++ ["fcs"] else pfs
        let mac := dset mac "vers" (.n 0)
        let mac := dset mac "sz" (.pair offset ttlRead)
        let mac := dset mac "present" (.strs pfs)
        .ok mac
    else .error .unpackErr

/-! ## Projections and concrete inputs used by the claims -/

/-- Whether `parse` succeeded. -/
def parseIsOk (f : Bytes) (b : Bool) : Bool :=
  match parse f b with
  | .ok _ => true
  | .error _ => false

/-- The decode record of a successful `parse` (empty on error). -/
def parseD (f : Bytes) (b : Bool) : Dict :=
  match parse f b with
  | .ok m => m
  | .error _ => []

/-- The `present` manifest of a decode record. -/
def presentOf (m : Dict) : List String :=
  match dget m "present" with
  | some (.strs l) => l
  | _ => []

/-- The `sz` pair of a decode record. -/
def szOf (m : Dict) : Option (Nat × Nat) :=
  match dget m "sz" with
  | some (.pair a b) => some (a, b)
  | _ => none

/-- The `type` entry of a nested BA/BAR control dict. -/
def ctrlType (d : Dict) (k : String) : Option String :=
  match dget d k with
  | some (.d c) =>
    match dget c "type" with
    | some (.s t) => some t
    | _ => none
  | _ => none

/-- The `unparsed` entry of a nested BA/BAR info dict. -/
def ctrlUnparsed (d : Dict) (k : String) : Option String :=
  match dget d k with
  | some (.d c) =>
    match dget c "unparsed" with
    | some (.s t) => some t
    | _ => none
  | _ => none

/-- Whether a family-parser call succeeded. -/
def ctrlResOk (r : Except MErr (List String × Dict × Nat)) : Bool :=
  match r with
  | .ok _ => true
  | .error _ => false

/-- The presence list returned by a family-parser call. -/
def ctrlResPfs (r : Except MErr (List String × Dict × Nat)) : List String :=
  match r with
  | .ok (p, _, _) => p
  | .error _ => []

/-- The record dict returned by a family-parser call. -/
def ctrlResDict (r : Except MErr (List String × Dict × Nat)) : Dict :=
  match r with
  | .ok (_, d, _) => d
  | .error _ => []

/-- The offset returned by a family-parser call. -/
def ctrlResOff (r : Except MErr (List String × Dict × Nat)) : Nat :=
  match r with
  | .ok (_, _, o) => o
  | .error _ => 0

/-- A 27-byte management action frame (first byte 0xD0) with one trailing
byte after the category and action octets. -/
def actionFrame : Bytes :=
  [208, 0, 0, 0, 1, 2, 3, 4, 5, 6, 7, 8, 9, 10, 11, 12,
   13, 14, 15, 16, 17, 18, 0, 0, 5, 1, 99]

/-- A 20-byte basic Block-Ack control frame (first byte 0x94, control word 0):
header, addr2, ba control and sequence control, with no bitmap bytes left. -/
def baFrame : Bytes :=
  [148, 0, 0, 0, 1, 2, 3, 4, 5, 6, 7, 8, 9, 10, 11, 12, 0, 0, 0, 0]

/-- A 27-byte probe-request frame (first byte 0x40) whose single information
element declares length 200 with only one body byte remaining. -/
def probeFrame : Bytes :=
  [64, 0, 0, 0, 1, 2, 3, 4, 5, 6, 7, 8, 9, 10, 11, 12,
   13, 14, 15, 16, 17, 18, 0, 0, 0, 200, 77]

/-- A 26-byte data frame of reserved subtype 13 (first byte 0xD8, flags 0)
with two QoS bytes after the addresses and sequence control. -/
def dataRsrv13Frame : Bytes :=
  [216, 0, 0, 0, 1, 2, 3, 4, 5, 6, 7, 8, 9, 10, 11, 12,
   13, 14, 15, 16, 17, 18, 0, 0, 7, 0]

/-! ## Proof section -/

/-! ## Claims C8, C9 prerequisites -/

theorem leastx_eq_mod (x v : Nat) : leastx x v = v % 2 ^ x := by
  unfold leastx
  rw [Nat.one_shiftLeft, Nat.and_pow_two_sub_one_eq_mod]

theorem mostx_eq_div (s v : Nat) : mostx s v = v / 2 ^ s := by
  unfold mostx
  rw [Nat.shiftRight_eq_div_pow]

theorem midx_eq (s x v : Nat) : midx s x v = 2 ^ s * (v / 2 ^ s % 2 ^ x) := by
  unfold midx
  rw [Nat.one_shiftLeft]
  have h2 : 2 ^ s * (v / 2 ^ s % 2 ^ x) = (v / 2 ^ s % 2 ^ x) <<< s := by
    rw [Nat.shiftLeft_eq, Nat.mul_comm]
  rw [h2]
  apply Nat.eq_of_testBit_eq
  intro i
  rcases Nat.lt_or_ge i s with hi | hi
  · have h1 : ¬ s ≤ i := Nat.not_le.mpr hi
    simp [Nat.testBit_land, Nat.testBit_shiftLeft, h1]
  · obtain ⟨j, rfl⟩ := Nat.exists_eq_add_of_le hi
    simp [Nat.testBit_land, Nat.testBit_shiftLeft, Nat.testBit_mod_two_pow,
          Nat.testBit_shiftRight, Nat.testBit_two_pow_sub_one, Nat.add_sub_cancel_left]
    rcases Nat.lt_or_ge j x with hj | hj
    · rw [← Nat.shiftRight_eq_div_pow]
      simp [hj, Nat.testBit_shiftRight, Bool.and_comm]
    · simp [Nat.not_lt.mpr hj]

/-- C8: `leastx x v` is the low `x` bits of `v` (arithmetically `v mod 2^x`);
`midx s x v` keeps bits `s..s+x-1` of `v` in place without shifting them down
(arithmetically `2^s * (v / 2^s mod 2^x)`, i.e. the extracted field still
carries its `2^s` weight); `mostx s v` is `v` shifted down by `s`
(arithmetically `v / 2^s`). -/
theorem c8_bit_extractors (x s v : Nat) :
    leastx x v = v % 2 ^ x ∧
    midx s x v = 2 ^ s * (v / 2 ^ s % 2 ^ x) ∧
    mostx s v = v / 2 ^ s :=
  ⟨leastx_eq_mod x v, midx_eq s x v, mostx_eq_div s v⟩

/-- C10 core identity: clearing a mask and OR-ing it back is OR-ing it in. -/
theorem ldiff_lor_self (v m : Nat) : Nat.ldiff v m ||| m = v ||| m := by
  apply Nat.eq_of_testBit_eq
  intro i
  simp [Nat.testBit_lor, Nat.testBit_ldiff]
  cases v.testBit i <;> cases m.testBit i <;> simp

/-- C10: for every flag table `t`, value `v` and name `n` defined in `t`
(with mask `m`), `flag_set t (flag_unset t v n) n = v ||| t[n]`
(`flag_unset` modelled from the spec, see `bitmask_unset`). -/
theorem c10_set_after_unset (t : BitTable) (v : Nat) (n : String) (m : Nat)
    (h : tblGet t n = some m) :
    (bitmask_unset t v n).bind (fun u => bitmask_set t u n) = some (v ||| m) := by
  simp [bitmask_unset, bitmask_set, h, Option.map, Option.bind, ldiff_lor_self]

/-- Witness for C10 at the table `{flag ↦ 0b0110}`, `v = 0b1011`. -/
theorem c10_set_after_unset_witness :
    tblGet [("flag", 6)] "flag" = some 6 ∧
    (bitmask_unset [("flag", 6)] 11 "flag").bind
      (fun u => bitmask_set [("flag", 6)] u "flag") = some (11 ||| 6) :=
  ⟨by decide, c10_set_after_unset [("flag", 6)] 11 "flag" 6 (by decide)⟩


/-! ## Claim C9 -/

/-- C9: for every 16-bit `v`, `seqctrl` yields `fragno < 16`, `seqno < 4096`,
and `fragno ||| (seqno <<< 4)` recomposes to `v`. -/
theorem c9_seqctrl_roundtrip (v : Nat) (h : v < 65536) :
    ∃ fr sq, seqctrl v = [("fragno", .n fr), ("seqno", .n sq)] ∧
      fr < 16 ∧ sq < 4096 ∧ fr ||| (sq <<< 4) = v := by
  refine ⟨leastx 4 v, mostx 4 v, rfl, ?_, ?_, ?_⟩
  · rw [leastx_eq_mod]
    exact Nat.mod_lt _ (by norm_num)
  · rw [mostx_eq_div]
    omega
  · rw [leastx_eq_mod, mostx_eq_div]
    apply Nat.eq_of_testBit_eq
    intro i
    have h16 : (16 : Nat) = 2 ^ 4 := by norm_num
    rcases Nat.lt_or_ge i 4 with hi | hi
    · have h4 : ¬ 4 ≤ i := Nat.not_le.mpr hi
      simp only [h16, Nat.testBit_lor, Nat.testBit_mod_two_pow, Nat.testBit_shiftLeft]
      simp [hi, h4]
    · obtain ⟨j, rfl⟩ := Nat.exists_eq_add_of_le hi
      rw [← Nat.shiftRight_eq_div_pow]
      simp only [h16, Nat.testBit_lor, Nat.testBit_mod_two_pow, Nat.testBit_shiftLeft,
                 Nat.testBit_shiftRight]
      simp [Nat.not_lt.mpr hi, Nat.add_sub_cancel_left]

/-- Witness for C9 at `v = 0x1234`. -/
theorem c9_seqctrl_roundtrip_witness :
    4660 < 65536 ∧
    ∃ fr sq, seqctrl 4660 = [("fragno", .n fr), ("seqno", .n sq)] ∧
      fr < 16 ∧ sq < 4096 ∧ fr ||| (sq <<< 4) = 4660 :=
  ⟨by decide, c9_seqctrl_roundtrip 4660 (by decide)⟩


/-! ## Dict lemmas -/

theorem dget_dset (d : Dict) (k k' : String) (v : Val) :
    dget (dset d k v) k' = if k = k' then some v else dget d k' := by
  induction d with
  | nil =>
    by_cases h : k = k' <;> simp [dset, dget, h]
  | cons p rest ih =>
    obtain ⟨k1, v1⟩ := p
    by_cases h1 : k1 = k
    · subst h1
      by_cases h : k1 = k' <;> simp [dset, dget, h]
    · by_cases h : k = k'
      · subst h
        simp [dset, dget, h1, ih, Ne.symm h1]
      · by_cases h2 : k1 = k' <;>
          simp [dset, dget, h1, h2, h, ih, Ne.symm h, Ne.symm h1]

/-! ## Claim C1 -/

/-- C1 (evaluation at the failing input): on a management action frame with a
trailing byte, `parse` succeeds, the `present` list contains the name
`action-els`, but the record has no field of that name; the data sits under
the differently spelled key `action-el`. -/
theorem c1_action_els_mismatch :
    parseIsOk actionFrame false = true ∧
    (presentOf (parseD actionFrame false)).contains "action-els" = true ∧
    (dget (parseD actionFrame false) "action-els").isSome = false ∧
    (dget (parseD actionFrame false) "action-el").isSome = true :=
  ⟨rfl, rfl, rfl, rfl⟩

/-! ## Claim C2 -/

/-- C2 (evaluation at the failing input): on a 20-byte basic Block-Ack frame
`parse` succeeds and returns `sz = (148, 148)`, far beyond the buffer length,
because the 128-byte bitmap advance is unconditional. -/
theorem c2_sz_exceeds_buffer :
    baFrame.length = 20 ∧
    parseIsOk baFrame false = true ∧
    szOf (parseD baFrame false) = some (148, 148) :=
  ⟨rfl, rfl, rfl⟩

/-! ## Claim C4 -/

/-- C4 (evaluation at the failing input): `qosapbufferstate 0x13` has fields
`eosp` (bit 4) and `a-msdu` (bit 7) because the source passes `_QOS_FIELDS_`
to `bitmask_list`; the fields `rsrv` and `buffer-state-indicated` claimed
from `_QOS_AP_PS_BUFFER_FIELDS` do not exist in the returned record. -/
theorem c4_wrong_flag_table :
    qosapbufferstate 19 =
      [("eosp", .n 1), ("a-msdu", .n 0), ("high-pri", .n 0), ("ap-buffered", .n 1)] ∧
    (dget (qosapbufferstate 19) "rsrv").isSome = false ∧
    (dget (qosapbufferstate 19) "buffer-state-indicated").isSome = false :=
  ⟨rfl, rfl, rfl⟩

/-! ## Claim C3 -/

/-- C3 counterexample: a probe-request whose information element declares
length 200 with one byte remaining is decoded successfully — no short-read
error — and the stored element body is the single remaining byte. -/
theorem c3_counterexample_no_short_read :
    probeFrame.length = 27 ∧
    probeFrame.getD 25 0 = 200 ∧
    parseIsOk probeFrame false = true ∧
    dget (parseD probeFrame false) "info-elements" =
      some (.vlist [.tup 0 (.bytes [77])]) ∧
    szOf (parseD probeFrame false) = some (226, 226) :=
  ⟨rfl, rfl, rfl, rfl, rfl⟩

/-! ## Claim C5 (counterexample part) -/

/-- C5 counterexample: a data frame of reserved subtype 13 (first byte 0xD8)
is decoded with a `qos` field, contrary to the claimed exclusion of 13. -/
theorem c5_counterexample_rsrv13_has_qos :
    dataRsrv13Frame.getD 0 0 = 216 ∧
    parseIsOk dataRsrv13Frame false = true ∧
    (dget (parseD dataRsrv13Frame false) "qos").isSome = true :=
  ⟨rfl, rfl, rfl⟩

/-! ## Claim C6 -/

theorem ftst_eq_none (b0 : Nat)
    (hbad : ¬ (b0 < 256 ∧ (b0 % 16 = 0 ∨ b0 % 16 = 4 ∨ b0 % 16 = 8))) :
    ftst b0 = none := by
  unfold ftst
  by_cases hlt : b0 < 256
  · have h0 : ¬ b0 % 16 = 0 := fun hh => hbad ⟨hlt, Or.inl hh⟩
    have h4 : ¬ b0 % 16 = 4 := fun hh => hbad ⟨hlt, Or.inr (Or.inl hh)⟩
    have h8 : ¬ b0 % 16 = 8 := fun hh => hbad ⟨hlt, Or.inr (Or.inr hh)⟩
    simp [hlt, h0, h4, h8]
  · simp [hlt]

/-- C6: a buffer shorter than 10 bytes fails with the invalid-frame-size
error, and a buffer of length at least 10 whose first byte sits in none of
the MGMT/CTRL/DATA dispatch tables (the tables key the subtype on byte
values with low nibble 0, 4 and 8 respectively) fails with the
invalid-frame-type error. -/
theorem c6_size_and_type_errors (f : Bytes) (b : Bool) :
    (f.length < 10 → parse f b = .error .invalidFrameSize) ∧
    (10 ≤ f.length →
      ¬ (f.getD 0 0 < 256 ∧
         (f.getD 0 0 % 16 = 0 ∨ f.getD 0 0 % 16 = 4 ∨ f.getD 0 0 % 16 = 8)) →
      parse f b = .error .invalidFrameType) := by
  constructor
  · intro h
    have hfc : framectrl f = .error .invalidFrameSize := by
      unfold framectrl MIN_FRAME_SZ
      rw [if_pos h]
    unfold parse
    rw [hfc]
  · intro h10 hbad
    have hfc : framectrl f = .error .invalidFrameType := by
      unfold framectrl MIN_FRAME_SZ
      rw [if_neg (by omega), ftst_eq_none (f.getD 0 0) hbad]
    unfold parse
    rw [hfc]

/-- Witness for C6: a 3-byte buffer and a 10-byte buffer with first byte
0x0C (reserved frame type). -/
theorem c6_size_and_type_errors_witness :
    parse [0, 0, 0] false = .error .invalidFrameSize ∧
    parse [12, 0, 0, 0, 0, 0, 0, 0, 0, 0] false = .error .invalidFrameType :=
  ⟨(c6_size_and_type_errors [0, 0, 0] false).1 (by decide),
   (c6_size_and_type_errors [12, 0, 0, 0, 0, 0, 0, 0, 0, 0] false).2
     (by decide) (by decide)⟩

/-! ## Claim C3 (amended part) -/

/-- C3 amended: in the management information-element loop, an element whose
declared length byte exceeds the remaining bytes never fails with a cursor
short read.  For every tag the loop stores the element with its body
truncated to the remaining bytes and returns with the offset advanced past
the end of the buffer: rates tags decode the truncated body through the
rate table, vendor-specific tags with at least 3 remaining bytes split the
truncated body into OUI and remainder, and every other tag stores the raw
truncated body.  The only failure is a vendor-specific element whose
truncated body is shorter than 3 bytes, and that raises the unpacking error
of the OUI split, not a short read. -/
theorem c3_amended_truncated_body (f : Bytes) (o : Nat) (acc : List Val)
    (h2 : o + 2 ≤ f.length)
    (hover : f.length < o + 2 + f.getD (o + 1) 0) :
    (f.getD o 0 = EID_VEND_SPEC → f.length - (o + 2) < 3 →
      ieLoop f o acc = .error .structError) ∧
    (f.getD o 0 = EID_VEND_SPEC → 3 ≤ f.length - (o + 2) →
      ieLoop f o acc =
        .ok (acc ++ [.tup (f.getD o 0)
            (.pairv (.s (ouiStr ((f.drop (o + 2)).take 3)))
                    (.bytes ((f.drop (o + 2)).drop 3)))],
          o + 2 + f.getD (o + 1) 0)) ∧
    (f.getD o 0 = EID_SUPPORTED_RATES ∨ f.getD o 0 = EID_EXT_RATES →
      ieLoop f o acc =
        .ok (acc ++ [.tup (f.getD o 0) (.rats ((f.drop (o + 2)).map getrate))],
          o + 2 + f.getD (o + 1) 0)) ∧
    (f.getD o 0 ≠ EID_VEND_SPEC → f.getD o 0 ≠ EID_SUPPORTED_RATES →
      f.getD o 0 ≠ EID_EXT_RATES →
      ieLoop f o acc =
        .ok (acc ++ [.tup (f.getD o 0) (.bytes (f.drop (o + 2)))],
          o + 2 + f.getD (o + 1) 0)) := by
  have hbody : (f.drop (o + 2)).take (f.getD (o + 1) 0) = f.drop (o + 2) := by
    apply List.take_of_length_le
    rw [List.length_drop]
    omega
  obtain ⟨m, hm⟩ : ∃ m, f.length + 1 = m + 1 + 1 := ⟨f.length - 1, by omega⟩
  refine ⟨?_, ?_, ?_, ?_⟩
  · intro htag hrem
    unfold ieLoop
    rw [hm]
    simp only [ieLoopF, unpackVals, readLE, FK.sz, List.getD_cons_zero, List.getD_cons_succ,
               Nat.mul_zero, Nat.add_zero]
    rw [if_pos (by omega : o < f.length), if_pos h2]
    have htagb : (f.getD o 0 == EID_VEND_SPEC) = true := by
      rw [htag]
      decide
    have hb3 : (((f.drop (o + 2)).take 3).length == 3) = false := by
      simp [List.length_take, List.length_drop]
      omega
    simp only [htagb, eq_self_iff_true, if_true, hbody]
    simp only [hb3, Bool.false_eq_true, if_false]
  · intro htag hrem3
    unfold ieLoop
    rw [hm]
    simp only [ieLoopF, unpackVals, readLE, FK.sz, List.getD_cons_zero, List.getD_cons_succ,
               Nat.mul_zero, Nat.add_zero]
    rw [if_pos (by omega : o < f.length), if_pos h2]
    have htagb : (f.getD o 0 == EID_VEND_SPEC) = true := by
      rw [htag]
      decide
    have hb3 : (((f.drop (o + 2)).take 3).length == 3) = true := by
      simp [List.length_take, List.length_drop]
      omega
    simp only [htagb, eq_self_iff_true, if_true, hbody]
    simp only [hb3, if_true]
    rw [if_neg (by omega : ¬ o + 2 + f.getD (o + 1) 0 < f.length)]
  · intro htag
    unfold ieLoop
    rw [hm]
    simp only [ieLoopF, unpackVals, readLE, FK.sz, List.getD_cons_zero, List.getD_cons_succ,
               Nat.mul_zero, Nat.add_zero]
    rw [if_pos (by omega : o < f.length), if_pos h2]
    have hv : (f.getD o 0 == EID_VEND_SPEC) = false := by
      rcases htag with h | h <;> rw [h] <;> decide
    have hr : (f.getD o 0 == EID_SUPPORTED_RATES || f.getD o 0 == EID_EXT_RATES) = true := by
      rcases htag with h | h <;> rw [h] <;> decide
    simp only [hv, Bool.false_eq_true, if_false, hr, eq_self_iff_true, if_true, hbody]
    rw [if_neg (by omega : ¬ o + 2 + f.getD (o + 1) 0 < f.length)]
  · intro hv1 hr1 hr2
    unfold ieLoop
    rw [hm]
    simp only [ieLoopF, unpackVals, readLE, FK.sz, List.getD_cons_zero, List.getD_cons_succ,
               Nat.mul_zero, Nat.add_zero]
    rw [if_pos (by omega : o < f.length), if_pos h2]
    have htag : (f.getD o 0 == EID_VEND_SPEC) = false := by
      simpa using hv1
    have hr1b : (f.getD o 0 == EID_SUPPORTED_RATES) = false := by
      simpa using hr1
    have hr2b : (f.getD o 0 == EID_EXT_RATES) = false := by
      simpa using hr2
    simp only [htag, hr1b, hr2b, Bool.or_self, Bool.false_eq_true, if_false, hbody]
    rw [if_neg (by omega : ¬ o + 2 + f.getD (o + 1) 0 < f.length)]

/-- Witness for C3 amended, exercising all four cases: a generic tag 0, a
vendor-specific element with only one truncated byte (raises), a
vendor-specific element with four truncated bytes (OUI split), and a
supported-rates element with two truncated bytes. -/
theorem c3_amended_truncated_body_witness :
    (0 + 2 ≤ ([0, 5, 7] : Bytes).length ∧ ([0, 5, 7] : Bytes).length < 0 + 2 + 5) ∧
    ieLoop [0, 5, 7] 0 [] = .ok ([.tup 0 (.bytes [7])], 7) ∧
    ieLoop [221, 5, 7] 0 [] = .error .structError ∧
    ieLoop [221, 9, 1, 2, 3, 4] 0 [] =
      .ok ([.tup 221 (.pairv (.s (ouiStr [1, 2, 3])) (.bytes [4]))], 11) ∧
    ieLoop [1, 9, 2, 4] 0 [] = .ok ([.tup 1 (.rats [getrate 2, getrate 4])], 11) :=
  ⟨⟨by decide, by decide⟩,
   (c3_amended_truncated_body [0, 5, 7] 0 [] (by decide) (by decide)).2.2.2
     (by decide) (by decide) (by decide),
   (c3_amended_truncated_body [221, 5, 7] 0 [] (by decide) (by decide)).1
     rfl (by decide),
   (c3_amended_truncated_body [221, 9, 1, 2, 3, 4] 0 [] (by decide) (by decide)).2.1
     rfl (by decide),
   (c3_amended_truncated_body [1, 9, 2, 4] 0 [] (by decide) (by decide)).2.2.1
     (Or.inl rfl)⟩

/-! ## Claim C7 -/

/-- C7: with the multi-tid bit set and the compressed-bm bit clear in the
BA/BAR control word, the Block-Ack parser stores `type = reserved` and the
hex of all remaining bytes under `bainfo.unparsed` while returning the
offset right after the control word (`o + 8`), whereas the
Block-Ack-Request parser stores the same remaining bytes under
`barinfo.unparsed` and returns the offset advanced to the end of the
buffer. -/
theorem c7_reserved_ba_vs_bar (f : Bytes) (pfs : List String) (d : Dict) (o : Nat)
    (hlen : o + 8 ≤ f.length)
    (hmt : readLE f (o + 6) 2 &&& 2 = 2)
    (hcb : ¬ readLE f (o + 6) 2 &&& 4 = 4) :
    (ctrlResOk (parsectrl ST_CTRL_BLOCK_ACK f pfs d o) = true ∧
     ctrlResPfs (parsectrl ST_CTRL_BLOCK_ACK f pfs d o) = pfs ++ ["addr2", "bactrl"] ∧
     ctrlResOff (parsectrl ST_CTRL_BLOCK_ACK f pfs d o) = o + 8 ∧
     ctrlType (ctrlResDict (parsectrl ST_CTRL_BLOCK_ACK f pfs d o)) "bactrl" =
       some "reserved" ∧
     ctrlUnparsed (ctrlResDict (parsectrl ST_CTRL_BLOCK_ACK f pfs d o)) "bainfo" =
       some (hexlify (f.drop (o + 8)))) ∧
    (ctrlResOk (parsectrl ST_CTRL_BLOCK_ACK_REQ f pfs d o) = true ∧
     ctrlResPfs (parsectrl ST_CTRL_BLOCK_ACK_REQ f pfs d o) = pfs ++ ["addr2", "barctrl"] ∧
     ctrlResOff (parsectrl ST_CTRL_BLOCK_ACK_REQ f pfs d o) = f.length ∧
     ctrlType (ctrlResDict (parsectrl ST_CTRL_BLOCK_ACK_REQ f pfs d o)) "barctrl" =
       some "reserved" ∧
     ctrlUnparsed (ctrlResDict (parsectrl ST_CTRL_BLOCK_ACK_REQ f pfs d o)) "barinfo" =
       some (hexlify (f.drop (o + 8)))) := by
  have h6 : o + 6 ≤ f.length := by omega
  have h62 : o + 6 + 2 ≤ f.length := by omega
  have hmtb : (readLE f (o + 6) 2 &&& 2 == 2) = true := by
    simpa using hmt
  have hcbb : (readLE f (o + 6) 2 &&& 4 == 4) = false := by
    simpa using hcb
  have hfl : o + 8 + (f.length - (o + 8)) = f.length := by omega
  refine ⟨⟨?_, ?_, ?_, ?_, ?_⟩, ⟨?_, ?_, ?_, ?_, ?_⟩⟩ <;>
    simp [parsectrl, ST_CTRL_BLOCK_ACK, ST_CTRL_CTS, ST_CTRL_ACK, ST_CTRL_RTS,
      ST_CTRL_PSPOLL, ST_CTRL_CFEND, ST_CTRL_CFEND_CFACK, ST_CTRL_BLOCK_ACK_REQ,
      unpackFrom, fmtSize, fmtAddr, FK.sz, unpackVals, h6, h62, hmtb, hcbb, hmt, hcb,
      Nat.add_assoc, List.length_drop, hfl, ctrlResOk, ctrlResPfs, ctrlResOff,
      ctrlResDict, ctrlType, ctrlUnparsed, dsetIn, dget_dset, dget, dset,
      bactrl, bitmask_list, BACTRL]

/-- Witness for C7 at an 8-byte buffer (six addr2 bytes and control word 2). -/
theorem c7_reserved_ba_vs_bar_witness :
    (0 + 8 ≤ ([1, 2, 3, 4, 5, 6, 2, 0] : Bytes).length
      ∧ readLE [1, 2, 3, 4, 5, 6, 2, 0] (0 + 6) 2 &&& 2 = 2) ∧
    (ctrlResOff (parsectrl ST_CTRL_BLOCK_ACK [1, 2, 3, 4, 5, 6, 2, 0] [] [] 0) = 0 + 8 ∧
     ctrlType (ctrlResDict (parsectrl ST_CTRL_BLOCK_ACK [1, 2, 3, 4, 5, 6, 2, 0] [] [] 0))
       "bactrl" = some "reserved") ∧
    ctrlResOff (parsectrl ST_CTRL_BLOCK_ACK_REQ [1, 2, 3, 4, 5, 6, 2, 0] [] [] 0) =
      ([1, 2, 3, 4, 5, 6, 2, 0] : Bytes).length :=
  ⟨⟨by decide, by decide⟩,
   ⟨(c7_reserved_ba_vs_bar [1, 2, 3, 4, 5, 6, 2, 0] [] [] 0
       (by decide) (by decide) (by decide)).1.2.2.1,
    (c7_reserved_ba_vs_bar [1, 2, 3, 4, 5, 6, 2, 0] [] [] 0
       (by decide) (by decide) (by decide)).1.2.2.2.1⟩,
   (c7_reserved_ba_vs_bar [1, 2, 3, 4, 5, 6, 2, 0] [] [] 0
       (by decide) (by decide) (by decide)).2.2.2.1⟩

/-! ## Claim C5 (amended part) -/

theorem parsedata_qos (st : Nat) (f : Bytes) (pfs : List String) (d : Dict) (o : Nat)
    (res : List String × Dict × Nat)
    (hok : parsedata st f pfs d o = .ok res)
    (hd : dget d "qos" = none) :
    ((dget res.2.1 "qos").isSome = true ↔ (8 ≤ st ∧ st ≤ 15)) := by
  unfold parsedata at hok
  cases h1 : unpackFrom fmtAddrAddrSeq f o with
  | error e => rw [h1] at hok; cases hok
  | ok vo =>
    rw [h1] at hok
    obtain ⟨vs, o1⟩ := vo
    dsimp only at hok
    repeat' split at hok
    all_goals try cases hok
    all_goals simp_all [dget_dset, ST_DATA_QOS_DATA, ST_DATA_QOS_CFACK_CFPOLL]
    -- remaining: the subtype is outside the QoS range and no qos key is set;
    -- resolve the fourth-address branch inside the leftover equation
    all_goals (
      rename_i heq hq
      split at heq)
    all_goals try (split at heq)
    all_goals try (cases heq)
    all_goals simp_all [dget_dset]

/-- C5 amended: for every successfully decoded data frame (first byte with
low nibble 8), the record contains a `qos` field iff the subtype (the high
nibble) is at least 8 — including the reserved subtype 13, which the source
does not exclude. -/
theorem c5_amended_qos_iff (f : Bytes) (fcs : Bool) (mac : Dict)
    (hok : parse f fcs = .ok mac)
    (hb : f.getD 0 0 % 16 = 8) (hlt : f.getD 0 0 < 256) :
    ((dget mac "qos").isSome = true ↔ 8 ≤ f.getD 0 0 / 16) := by
  unfold parse at hok
  cases hfc : framectrl f with
  | error e => rw [hfc] at hok; cases hok
  | ok t =>
    rw [hfc] at hok
    obtain ⟨ft, st, fs⟩ := t
    by_cases h10 : f.length < MIN_FRAME_SZ
    · rw [framectrl, if_pos h10] at hfc; cases hfc
    · have h2 : 1 + fmtSize [FK.B] ≤ f.length := by
        simp only [fmtSize, FK.sz, List.map, List.sum_cons, List.sum_nil]
        unfold MIN_FRAME_SZ at h10
        omega
      have h0 : ¬ f.getD 0 0 % 16 = 0 := by omega
      have h4 : ¬ f.getD 0 0 % 16 = 4 := by omega
      rw [framectrl, if_neg h10] at hfc
      unfold ftst at hfc
      rw [if_pos hlt] at hfc
      simp only [hb] at hfc
      rw [unpackFrom, if_pos h2] at hfc
      norm_num at hfc
      obtain ⟨hft, hst, hfs⟩ := hfc
      subst hft
      subst hst
      dsimp only at hok
      simp only [FT_DATA, FT_CTRL, FT_MGMT,
        show ((2 : Nat) == 1) = false from rfl, show ((2 : Nat) == 0) = false from rfl,
        show ((2 : Nat) == 2) = true from rfl, Bool.false_eq_true, if_false,
        eq_self_iff_true, if_true] at hok
      have hst15 : f.getD 0 0 / 16 ≤ 15 := by omega
      cases fcs with
      | false =>
        simp only [Bool.false_eq_true, if_false] at hok
        split at hok
        · split at hok
          · cases hok
          · rename_i heq
            cases hok
            have hiff := parsedata_qos _ _ _ _ _ _ heq (by simp [dget_dset, dget])
            dsimp only at hiff
            simp only [dget_dset, show ¬ ("present" : String) = "qos" by simp,
              show ¬ ("sz" : String) = "qos" by simp,
              show ¬ ("vers" : String) = "qos" by simp, if_false]
            rw [hiff]
            simp only [List.getD_eq_getElem?_getD] at hst15 ⊢
            omega
        · cases hok
      | true =>
        simp only [eq_self_iff_true, if_true] at hok
        split at hok
        · split at hok
          · cases hok
          · rename_i heq
            cases hok
            have hiff := parsedata_qos _ _ _ _ _ _ heq (by simp [dget_dset, dget])
            dsimp only at hiff
            simp only [dget_dset, show ¬ ("present" : String) = "qos" by simp,
              show ¬ ("sz" : String) = "qos" by simp,
              show ¬ ("vers" : String) = "qos" by simp, if_false]
            rw [hiff]
            simp only [List.getD_eq_getElem?_getD] at hst15 ⊢
            omega
        · cases hok

/-- Witness for C5 amended at the reserved-subtype-13 data frame. -/
theorem c5_amended_qos_iff_witness :
    (parse dataRsrv13Frame false = .ok (parseD dataRsrv13Frame false) ∧
     dataRsrv13Frame.getD 0 0 % 16 = 8) ∧
    ((dget (parseD dataRsrv13Frame false) "qos").isSome = true ↔
      8 ≤ dataRsrv13Frame.getD 0 0 / 16) :=
  ⟨⟨rfl, by decide⟩,
   c5_amended_qos_iff dataRsrv13Frame false (parseD dataRsrv13Frame false)
     rfl (by decide) (by decide)⟩

end Wraith
